import Mathlib

/-!
Verification of `src/examples/user_routes.py`: three HTTP route handlers
(`create_user`, `get_user`, `list_users`) over a `users` table accessed
through an ORM session.  The handlers are embedded as pure state-passing
functions over an explicit database state; the parts the file delegates to
external collaborators (the database's id generation, the framework's
dependency resolution of `get_current_user`) are modelled from the spec.
-/

namespace UserRoutes

/-- Input payload of `create_user` (`class UserCreate`): `{name, email}`. -/
structure UserCreate where
  name : String
  email : String
deriving Repr, DecidableEq

/-- A row of the users table (`class User`): `{id, name, email}`.
`UserResponse` has exactly the same fields, so the persisted row is also
the response body. -/
structure User where
  id : String
  name : String
  email : String
deriving Repr, DecidableEq

/-- An authenticated principal, as resolved by `get_current_user`.  Its
contents are opaque to this file; the handlers never inspect it. -/
structure CurrentUser where
  subject : String
deriving Repr, DecidableEq

/-- `raise HTTPException(status_code=..., detail=...)`. -/
structure HTTPException where
  status_code : Nat
  detail : String
deriving Repr, DecidableEq

/-- The database state behind the ORM `Session`: the rows of the users
table in insertion order, plus the generator state for fresh ids. -/
structure DB where
  rows : List User
  nextId : Nat
deriving Repr, DecidableEq

/-- Modelled from the spec: the id of a new row "is assigned externally
(by the ORM/database) and is otherwise an opaque unique identifier", and a
created user has "a non-empty id".  We realize the generator as a string
of `n + 1` marks, which is non-empty and injective in `n`. -/
def genId (n : Nat) : String :=
  String.mk (List.replicate (n + 1) 'u')

/-- Modelled from the spec: the framework resolves the `get_current_user`
dependency before a handler body runs; "auth failures are handled entirely
by the underlying frameworks".  Resolution succeeds exactly when the
request carries an authenticated principal. -/
def get_current_user (auth : Option CurrentUser) : Except HTTPException CurrentUser :=
  match auth with
  | some cu => .ok cu
  | none => .error ⟨401, "Not authenticated"⟩

/-- Body of `create_user` (decorator `status_code=201`): build
`User(name=user.name, email=user.email)`, `db.add`, `db.commit` (which
persists the row and assigns its generated id), `db.refresh`, and return
the persisted row.  Result: (HTTP status, response body), new DB state. -/
def create_user (user : UserCreate) (db : DB) (currentUser : CurrentUser) :
    (Nat × User) × DB :=
  let db_user : User := { id := genId db.nextId, name := user.name, email := user.email }
  ((201, db_user), { rows := db.rows ++ [db_user], nextId := db.nextId + 1 })

/-- Body of `get_user`: `db.query(User).filter(User.id == user_id).first()`;
if no row matched, `raise HTTPException(404, "User not found")`, else
return the row (default status 200). -/
def get_user (user_id : String) (db : DB) :
    Except HTTPException (Nat × User) × DB :=
  match db.rows.find? (fun u => u.id == user_id) with
  | some user => (.ok (200, user), db)
  | none => (.error ⟨404, "User not found"⟩, db)

/-- Body of `list_users`: `db.query(User).all()` (default status 200). -/
def list_users (db : DB) (currentUser : CurrentUser) :
    (Nat × List User) × DB :=
  ((200, db.rows), db)

/-- The `POST /users/` route: `create_user` declares
`current_user=Depends(get_current_user)`, so the framework resolves the
dependency first and the body runs only on success. -/
def create_user_route (auth : Option CurrentUser) (user : UserCreate) (db : DB) :
    Except HTTPException ((Nat × User) × DB) :=
  match get_current_user auth with
  | .ok cu => .ok (create_user user db cu)
  | .error e => .error e

/-- The `GET /users/{user_id}` route: `get_user` declares no
`get_current_user` dependency, so the request's auth context is ignored. -/
def get_user_route (auth : Option CurrentUser) (user_id : String) (db : DB) :
    Except HTTPException (Nat × User) × DB :=
  get_user user_id db

/-- The `GET /users/` route: `list_users` declares
`current_user=Depends(get_current_user)`. -/
def list_users_route (auth : Option CurrentUser) (db : DB) :
    Except HTTPException ((Nat × List User) × DB) :=
  match get_current_user auth with
  | .ok cu => .ok (list_users db cu)
  | .error e => .error e

/-- Iterated `create_user`: the list of records returned by creating each
payload in turn, with the final database state. -/
def createMany (cu : CurrentUser) (ps : List UserCreate) (db : DB) :
    List User × DB :=
  match ps with
  | [] => ([], db)
  | p :: rest =>
    let r := create_user p db cu
    let s := createMany cu rest r.2
    (r.1.2 :: s.1, s.2)

theorem genId_ne_empty (n : Nat) : genId n ≠ "" := by
  intro h
  have : (genId n).length = 0 := by rw [h]; rfl
  simp [genId, String.length] at this

theorem genId_length (n : Nat) : (genId n).length = n + 1 := by
  simp [genId, String.length]

theorem genId_injective : Function.Injective genId := by
  intro m n h
  have := congrArg String.length h
  rw [genId_length, genId_length] at this
  omega

/-- **C1**: for every valid payload, `create_user` succeeds with HTTP
status 201 and returns a record whose name and email equal the payload's
and whose id is non-empty; the record is the newly persisted row. -/
theorem create_user_correct (u : UserCreate) (db : DB) (cu : CurrentUser) :
    (create_user u db cu).1.1 = 201
    ∧ (create_user u db cu).1.2.name = u.name
    ∧ (create_user u db cu).1.2.email = u.email
    ∧ (create_user u db cu).1.2.id ≠ ""
    ∧ (create_user u db cu).1.2 ∈ (create_user u db cu).2.rows := by
  refine ⟨rfl, rfl, rfl, genId_ne_empty db.nextId, ?_⟩
  simp [create_user]

/-- **C2**: `get_user` yields HTTP 404 with detail "User not found" iff no
row with the given id exists; any success returns a stored row with that
id and HTTP status 200. -/
theorem get_user_correct (user_id : String) (db : DB) :
    ((get_user user_id db).1 = .error ⟨404, "User not found"⟩
      ↔ ∀ u ∈ db.rows, u.id ≠ user_id)
    ∧ (∀ st u, (get_user user_id db).1 = .ok (st, u)
      → st = 200 ∧ u ∈ db.rows ∧ u.id = user_id)
    ∧ ((∃ u ∈ db.rows, u.id = user_id)
      → ∃ u, (get_user user_id db).1 = .ok (200, u)
          ∧ u ∈ db.rows ∧ u.id = user_id) := by
  cases h : db.rows.find? (fun u => u.id == user_id) with
  | none =>
    have hnone := List.find?_eq_none.mp h
    refine ⟨⟨fun _ u hu => ?_, fun _ => by simp [get_user, h]⟩, ?_, ?_⟩
    · have := hnone u hu
      simpa using this
    · intro st u hok
      simp [get_user, h] at hok
    · rintro ⟨u, hu, hid⟩
      have := hnone u hu
      simp [hid] at this
  | some u0 =>
    have hmem : u0 ∈ db.rows := List.mem_of_find?_eq_some h
    have hid : u0.id = user_id := by
      have := List.find?_some h
      simpa using this
    refine ⟨⟨fun hc => ?_, fun hall => ?_⟩, ?_, ?_⟩
    · simp [get_user, h] at hc
    · exact absurd hid (hall u0 hmem)
    · intro st u hok
      simp [get_user, h] at hok
      exact ⟨hok.1.symm, hok.2 ▸ hmem, hok.2 ▸ hid⟩
    · intro _
      exact ⟨u0, by simp [get_user, h], hmem, hid⟩

/-- Witness for `get_user_correct` at a concrete database, exercising
both the 404 branch and the success branch. -/
theorem get_user_correct_witness :
    (get_user "b" ⟨[⟨"a", "n", "e"⟩], 1⟩).1 = Except.error ⟨404, "User not found"⟩
    ∧ ∃ u, (get_user "a" ⟨[⟨"a", "n", "e"⟩], 1⟩).1 = Except.ok (200, u)
        ∧ u ∈ (⟨[⟨"a", "n", "e"⟩], 1⟩ : DB).rows ∧ u.id = "a" :=
  ⟨(get_user_correct "b" ⟨[⟨"a", "n", "e"⟩], 1⟩).1.mpr (by decide),
   (get_user_correct "a" ⟨[⟨"a", "n", "e"⟩], 1⟩).2.2
     ⟨⟨"a", "n", "e"⟩, by decide, rfl⟩⟩

/-- **C8**: `get_user` is read-only: the database state after the call
equals the state before, on both the success path and the 404 path. -/
theorem get_user_readonly (user_id : String) (db : DB) :
    (get_user user_id db).2 = db := by
  unfold get_user
  cases db.rows.find? (fun u => u.id == user_id) <;> rfl

/-- **C9**: `get_user` requires no authentication: its route ignores the
request's auth context, so its result depends only on `user_id` and the
database state. -/
theorem get_user_no_auth (user_id : String) (db : DB) :
    (∀ a1 a2 : Option CurrentUser,
      get_user_route a1 user_id db = get_user_route a2 user_id db)
    ∧ get_user_route none user_id db = get_user user_id db :=
  ⟨fun _ _ => rfl, rfl⟩

/-- **C5**: `create_user` and `list_users` require an authenticated
caller: with a resolved principal the body runs, without one the route
fails before the body, and any success implies the dependency resolved. -/
theorem auth_required (u : UserCreate) (db : DB) :
    (∀ cu, create_user_route (some cu) u db = .ok (create_user u db cu))
    ∧ create_user_route none u db = .error ⟨401, "Not authenticated"⟩
    ∧ (∀ cu, list_users_route (some cu) db = .ok (list_users db cu))
    ∧ list_users_route none db = .error ⟨401, "Not authenticated"⟩
    ∧ (∀ auth r, create_user_route auth u db = .ok r
        → ∃ cu, get_current_user auth = .ok cu)
    ∧ (∀ auth r, list_users_route auth db = .ok r
        → ∃ cu, get_current_user auth = .ok cu) := by
  refine ⟨fun _ => rfl, rfl, fun _ => rfl, rfl, ?_, ?_⟩
  · intro auth r h
    cases auth with
    | some cu => exact ⟨cu, rfl⟩
    | none => simp [create_user_route, get_current_user] at h
  · intro auth r h
    cases auth with
    | some cu => exact ⟨cu, rfl⟩
    | none => simp [list_users_route, get_current_user] at h

/-- Witness for `auth_required` at a concrete payload and database. -/
theorem auth_required_witness :
    create_user_route none ⟨"n", "e"⟩ ⟨[], 0⟩ = Except.error ⟨401, "Not authenticated"⟩
    ∧ list_users_route none ⟨[], 0⟩ = Except.error ⟨401, "Not authenticated"⟩ :=
  ⟨(auth_required ⟨"n", "e"⟩ ⟨[], 0⟩).2.1,
   (auth_required ⟨"n", "e"⟩ ⟨[], 0⟩).2.2.2.1⟩

/-- **C6**: `create_user` enforces no uniqueness: two calls with the same
payload both return 201 and insert two separate rows with distinct ids. -/
theorem create_user_no_uniqueness (p : UserCreate) (db : DB) (cu cu2 : CurrentUser) :
    (create_user p db cu).1.1 = 201
    ∧ (create_user p (create_user p db cu).2 cu2).1.1 = 201
    ∧ (create_user p db cu).1.2.id ≠ (create_user p (create_user p db cu).2 cu2).1.2.id
    ∧ (create_user p (create_user p db cu).2 cu2).2.rows
        = db.rows ++ [(create_user p db cu).1.2,
                      (create_user p (create_user p db cu).2 cu2).1.2] := by
  refine ⟨rfl, rfl, ?_, by simp [create_user]⟩
  intro h
  have h2 := genId_injective h
  have h3 : (create_user p db cu).2.nextId = db.nextId + 1 := rfl
  omega

/-- **C7**: a successful `create_user` performs exactly one write: the new
table is the old table plus the single inserted row, the old rows kept
unchanged as a prefix. -/
theorem create_user_frame (u : UserCreate) (db : DB) (cu : CurrentUser) :
    (create_user u db cu).2.rows = db.rows ++ [(create_user u db cu).1.2]
    ∧ (create_user u db cu).2.rows.length = db.rows.length + 1
    ∧ (create_user u db cu).2.rows.take db.rows.length = db.rows := by
  refine ⟨rfl, by simp [create_user], ?_⟩
  simp [create_user]

/-- **C10**: `list_users` is read-only and returns exactly the stored
rows; when the table's rows are distinct, each appears exactly once. -/
theorem list_users_readonly (db : DB) (cu : CurrentUser) :
    (list_users db cu).2 = db
    ∧ (list_users db cu).1.2 = db.rows
    ∧ (db.rows.Nodup → ∀ u ∈ db.rows, (list_users db cu).1.2.count u = 1) :=
  ⟨rfl, rfl, fun h u hu => List.count_eq_one_of_mem h hu⟩

/-- Witness for `list_users_readonly` at a concrete database. -/
theorem list_users_readonly_witness :
    (list_users ⟨[⟨"a", "n", "e"⟩], 1⟩ ⟨"s"⟩).1.2.count ⟨"a", "n", "e"⟩ = 1 :=
  (list_users_readonly ⟨[⟨"a", "n", "e"⟩], 1⟩ ⟨"s"⟩).2.2 (by decide)
    ⟨"a", "n", "e"⟩ (by decide)

/-- **C3**: round-trip: when the generated id is fresh for the table (the
database invariant for its opaque unique ids), `get_user` on the id
returned by `create_user`, with no intervening operation, returns exactly
the record `create_user` returned, leaving the state unchanged. -/
theorem create_then_get (p : UserCreate) (db : DB) (cu : CurrentUser)
    (hfresh : ∀ u ∈ db.rows, u.id ≠ genId db.nextId) :
    get_user (create_user p db cu).1.2.id (create_user p db cu).2
      = (.ok (200, (create_user p db cu).1.2), (create_user p db cu).2) := by
  have hnone : db.rows.find? (fun u => u.id == genId db.nextId) = none := by
    rw [List.find?_eq_none]
    intro u hu
    simpa using hfresh u hu
  simp [get_user, create_user, List.find?_append, hnone]

/-- Witness for `create_then_get` starting from the empty database. -/
theorem create_then_get_witness :
    get_user (create_user ⟨"n", "e"⟩ ⟨[], 0⟩ ⟨"s"⟩).1.2.id
        (create_user ⟨"n", "e"⟩ ⟨[], 0⟩ ⟨"s"⟩).2
      = (Except.ok (200, (create_user ⟨"n", "e"⟩ ⟨[], 0⟩ ⟨"s"⟩).1.2),
         (create_user ⟨"n", "e"⟩ ⟨[], 0⟩ ⟨"s"⟩).2) :=
  create_then_get ⟨"n", "e"⟩ ⟨[], 0⟩ ⟨"s"⟩ (by simp)

theorem createMany_rows (cu : CurrentUser) (ps : List UserCreate) (db : DB) :
    (createMany cu ps db).2.rows = db.rows ++ (createMany cu ps db).1 := by
  induction ps generalizing db with
  | nil => simp [createMany]
  | cons p rest ih =>
    simp [createMany, ih, create_user]

theorem createMany_length (cu : CurrentUser) (ps : List UserCreate) (db : DB) :
    (createMany cu ps db).1.length = ps.length := by
  induction ps generalizing db with
  | nil => rfl
  | cons p rest ih => simp [createMany, ih]

/-- **C4**: `list_users` returns every row of the table, unfiltered and
unpaginated; after creating the payloads of `ps`, the result contains all
`ps.length` created records. -/
theorem list_users_complete (db : DB) (cu cu2 : CurrentUser) (ps : List UserCreate) :
    (list_users db cu).1.2 = db.rows
    ∧ (createMany cu2 ps db).1.length = ps.length
    ∧ ∀ u ∈ (createMany cu2 ps db).1,
        u ∈ (list_users (createMany cu2 ps db).2 cu).1.2 := by
  refine ⟨rfl, createMany_length cu2 ps db, ?_⟩
  intro u hu
  show u ∈ (createMany cu2 ps db).2.rows
  rw [createMany_rows]
  exact List.mem_append_right _ hu

/-- Witness for `list_users_complete` with one created payload. -/
theorem list_users_complete_witness :
    (⟨genId 0, "n", "e"⟩ : User)
      ∈ (list_users (createMany ⟨"s"⟩ [⟨"n", "e"⟩] ⟨[], 0⟩).2 ⟨"t"⟩).1.2 :=
  (list_users_complete ⟨[], 0⟩ ⟨"t"⟩ ⟨"s"⟩ [⟨"n", "e"⟩]).2.2
    ⟨genId 0, "n", "e"⟩ (by decide)

end UserRoutes
